import Mathlib

/-!
Shallow embedding of the soheabs-sync-tools repository: `autosync.py`
(the `SaveConfig` state manager and the `AutoSyncTree` command tree) and
`debugger.py` (the `SoheabsTreeDebugger` validation reporter), together with
theorems checking the specification claims about them.

Modelling conventions:
* time is in whole seconds (`Int`), matching the persisted
  `int(discord.utils.utcnow().timestamp())`;
* the filesystem and the clock are threaded explicitly;
* the external hash pipeline
  `xxhash.xxh64_hexdigest(msgspec.msgpack.encode(payloads), seed=0)` and the
  per-command payload serialization are abstract collaborators, passed in as a
  function `hexdigest : List P → String` over an abstract payload type `P`;
* exceptions become `Except`, log diagnostics become explicit flags.
-/

/-- The persisted state record (the `SavedConfig` TypedDict, autosync.py lines
16-18). At runtime either field may also hold `None` (set on decode failure at
line 104), hence `Option`. -/
structure SavedConfig where
  last_timestamp : Option Int
  last_hex : Option String
  deriving DecidableEq, Repr

/-- A resolved config-file location: `directory / (filename + ".json")`
(autosync.py line 67). -/
structure ConfigPath where
  dir : String
  base : String
  deriving DecidableEq, Repr

/-- Contents of a file on disk, as far as
`msgspec.json.decode(content, type=SavedConfig)` is concerned: `valid t h` is a
JSON object carrying the required integer `last_timestamp` and string
`last_hex` (the only shape the decode accepts); `invalid` is anything else —
an empty JSON object written on file creation, corrupted JSON, or a wrong
schema. -/
inductive FileContent where
  | valid (t : Int) (h : String)
  | invalid (raw : String)
  deriving DecidableEq, Repr

/-- The filesystem: a resolved path maps to the content stored there, `none`
when the file is missing. -/
def FileSystem := ConfigPath → Option FileContent

/-- Writing a whole file at once (`Path.write_text`). -/
def FileSystem.write (fs : FileSystem) (p : ConfigPath) (c : FileContent) : FileSystem :=
  fun q => if q = p then some c else fs q

/-- Model of `msgspec.json.decode(content, type=SavedConfig)` at autosync.py line 100:
it succeeds only on a JSON object with both required fields at the right
types; reading a missing file raises, so decoding `none` fails as well. -/
def decodeConfig : Option FileContent → Option SavedConfig
  | some (.valid t h) => some ⟨some t, some h⟩
  | _ => none

/-- The `SaveConfig` manager (autosync.py lines 21-129): directory, filename,
the cached resolved path (`__path`) and the cached in-memory config
(`_config`). -/
structure SaveConfig where
  directory : String
  filename : String
  path_cache : Option ConfigPath
  config : Option SavedConfig
  deriving Repr

/-- Model of `SaveConfig.__ensure_path_exists` (lines 88-91): create the file holding
an empty JSON object when it is missing. -/
def ensurePathExists (fs : FileSystem) (p : ConfigPath) : FileSystem :=
  match fs p with
  | some _ => fs
  | none => fs.write p (.invalid ("\x7b\x7d"))

/-- The `path` property (lines 61-69): return the cached resolved path if set,
otherwise resolve `directory / filename.json`, ensure it exists on disk, and
cache it. -/
def SaveConfig.path (s : SaveConfig) (fs : FileSystem) :
    ConfigPath × SaveConfig × FileSystem :=
  match s.path_cache with
  | some p => (p, s, fs)
  | none =>
    let p : ConfigPath := ⟨s.directory, s.filename⟩
    (p, { s with path_cache := some p }, ensurePathExists fs p)

/-- Model of `SaveConfig.get_config` (lines 93-106): return the cached config unless a
reload is forced or no cache exists; on a reload, read and decode the backing
file, falling back to the absent/absent record on any failure. -/
def SaveConfig.get_config (s : SaveConfig) (fs : FileSystem) (force_reload : Bool) :
    SavedConfig × SaveConfig × FileSystem :=
  match s.config, force_reload with
  | some c, false => (c, s, fs)
  | _, _ =>
    match s.path fs with
    | (p, s1, fs1) =>
      match decodeConfig (fs1 p) with
      | some c => (c, { s1 with config := some c }, fs1)
      | none => (⟨none, none⟩, { s1 with config := some ⟨none, none⟩ }, fs1)

/-- Model of `SaveConfig.__init__` (lines 32-42): both caches start empty, then
`get_config(force_reload=True)` runs. -/
def SaveConfig.make (directory filename : String) (fs : FileSystem) :
    SaveConfig × FileSystem :=
  match SaveConfig.get_config ⟨directory, filename, none, none⟩ fs true with
  | (_, s, fs1) => (s, fs1)

/-- Python `str.removesuffix(".json")` (line 81). -/
def removeJsonSuffix (s : String) : String := s.stripSuffix (".json")

/-- The `directory` setter (lines 49-59): retarget the directory and drop the
cached resolved path; the in-memory config cache `_config` is NOT touched. -/
def SaveConfig.set_directory (s : SaveConfig) (new_path : String) : SaveConfig :=
  { s with directory := new_path, path_cache := none }

/-- The `filename` setter (lines 76-86): strip a trailing `.json`, retarget,
and drop the cached resolved path; `_config` is NOT touched. -/
def SaveConfig.set_filename (s : SaveConfig) (new_filename : String) : SaveConfig :=
  { s with filename := removeJsonSuffix new_filename, path_cache := none }

/-- Model of `SaveConfig._update` (lines 108-116): fetch the current config, overwrite
its two fields with the new hex and `int(utcnow().timestamp())` (passed here
as `now`), write the whole object to the backing file, and store it in the
cache. -/
def SaveConfig._update (s : SaveConfig) (fs : FileSystem) (new_hex : String)
    (now : Int) : SaveConfig × FileSystem :=
  match s.get_config fs false with
  | (_, s1, fs1) =>
    match s1.path fs1 with
    | (p, s2, fs2) =>
      ({ s2 with config := some ⟨some now, some new_hex⟩ },
        fs2.write p (.valid now new_hex))

/-- Model of `SaveConfig.last_synced_at` (lines 118-124): `if not timestamp: return
None` — Python falsiness sends both a missing timestamp and the value `0` to
`None`. -/
def SaveConfig.last_synced_at (s : SaveConfig) (fs : FileSystem) :
    Option Int × SaveConfig × FileSystem :=
  match s.get_config fs false with
  | (c, s1, fs1) =>
    (match c.last_timestamp with
     | none => none
     | some t => if t = 0 then none else some t, s1, fs1)

/-- Model of `SaveConfig.last_hex` (lines 126-129). -/
def SaveConfig.last_hex (s : SaveConfig) (fs : FileSystem) :
    Option String × SaveConfig × FileSystem :=
  match s.get_config fs false with
  | (c, s1, fs1) => (c.last_hex, s1, fs1)

/-- A command descriptor as `generate_hex` consumes it: its canonical
qualified name (the sort key, line 255) and its canonical payload — the result
of `to_dict` or `get_translated_payload` (lines 257-263), produced by an
external collaborator and kept abstract in the type parameter `P`. -/
structure Command (P : Type) where
  qualified_name : String
  payload : P
  deriving DecidableEq, Repr

/-- Model of `AutoSyncTree` (autosync.py lines 132-284): the config manager, the
minimal sync interval (a `timedelta`, modelled in whole seconds; `none` means
no minimal interval), the `_current_hex` cache, and the live command set per
scope (`self._get_all_commands(guild=guild)` of the surrounding CommandTree;
the scope is `none` for global or `some id` for a guild). -/
structure AutoSyncTree (P : Type) where
  config_manager : SaveConfig
  minimal_sync_interval : Option Int
  current_hex : Option String
  commands : Option Int → List (Command P)

variable {P ε R : Type}

/-- Model of `AutoSyncTree.can_sync` (lines 209-230): true when no minimal interval is
configured or no last sync is recorded, else `now - last_sync >=
minimal_sync_interval`. -/
def AutoSyncTree.can_sync (t : AutoSyncTree P) (fs : FileSystem) (now : Int) :
    Bool × AutoSyncTree P × FileSystem :=
  match t.config_manager.last_synced_at fs with
  | (last_sync, s1, fs1) =>
    let t1 := { t with config_manager := s1 }
    match t.minimal_sync_interval, last_sync with
    | none, _ => (true, t1, fs1)
    | _, none => (true, t1, fs1)
    | some interval, some ls => (decide (now - ls ≥ interval), t1, fs1)

/-- The ordering used by `sorted(..., key=lambda c: c.qualified_name)` at
lines 254-256. -/
def cmdLE (a b : Command P) : Bool :=
  decide (a.qualified_name ≤ b.qualified_name)

/-- Model of `AutoSyncTree.generate_hex` (lines 252-268): sort the commands of the
scope by qualified name (Python `sorted` is a stable sort, and so is
`List.mergeSort`), serialize each to its payload, hash the encoded payload
list. `hexdigest` stands for the external
`xxhash.xxh64_hexdigest(msgspec.msgpack.encode(payloads), seed=0)` pipeline;
the result is stored in `_current_hex` and returned. -/
def AutoSyncTree.generate_hex (hexdigest : List P → String) (t : AutoSyncTree P)
    (guild : Option Int) : String × AutoSyncTree P :=
  let sorted_commands := (t.commands guild).mergeSort cmdLE
  let hex := hexdigest (sorted_commands.map (·.payload))
  (hex, { t with current_hex := some hex })

/-- Result of `should_sync`: the returned boolean, whether the
hex-length-mismatch diagnostic (the `_log.warning` at lines 241-244) fired,
and the updated state. -/
structure ShouldSyncResult (P : Type) where
  res : Bool
  warned : Bool
  tree : AutoSyncTree P
  fs : FileSystem

/-- Model of `AutoSyncTree.should_sync` (lines 232-250): `False` straight away when
`can_sync` is false (no fingerprint computed); otherwise read `last_hex`,
compute the current hex — note `generate_hex()` is called with NO guild
argument, so always over the global command set — emit the length-mismatch
warning when a truthy stored hex differs in length, and return
`last_hex != current_hex` (where a `None` stored hex compares unequal to any
string). -/
def AutoSyncTree.should_sync (hexdigest : List P → String) (t : AutoSyncTree P)
    (fs : FileSystem) (now : Int) : ShouldSyncResult P :=
  match t.can_sync fs now with
  | (cs, t1, fs1) =>
    if cs = false then ⟨false, false, t1, fs1⟩
    else
      match t1.config_manager.last_hex fs1 with
      | (lh, s2, fs2) =>
        let t2 := { t1 with config_manager := s2 }
        match AutoSyncTree.generate_hex hexdigest t2 none with
        | (current, t3) =>
          let warned := match lh with
            | some s => (s != "") && (s.length != current.length)
            | none => false
          ⟨decide (lh ≠ some current), warned, t3, fs2⟩

/-- Result of one `sync` call: the outcome (`.error` models the transport
exception propagating out of `super().sync`), the updated state, and whether
the transport was invoked at all. -/
structure SyncResult (P ε R : Type) where
  result : Except ε (List R)
  tree : AutoSyncTree P
  fs : FileSystem
  transport_invoked : Bool

/-- Model of `AutoSyncTree.sync` (lines 270-284): return `[]` without contacting the
transport when `should_sync()` is false; otherwise invoke
`super().sync(guild=guild)` — the external transport, whose outcome is the
`transport` argument. On transport failure the exception propagates and
nothing further runs. On success, persist
`self.current_hex or (await self.generate_hex(guild=guild))` — Python `or`
recomputes (and then with the guild of THIS call) only when `_current_hex` is
`None` or the empty string — then return the synced commands. -/
def AutoSyncTree.sync (hexdigest : List P → String) (t : AutoSyncTree P)
    (fs : FileSystem) (now : Int) (guild : Option Int)
    (transport : Except ε (List R)) : SyncResult P ε R :=
  match AutoSyncTree.should_sync hexdigest t fs now with
  | ⟨should, _, t1, fs1⟩ =>
    if should = false then ⟨.ok [], t1, fs1, false⟩
    else
      match transport with
      | .error e => ⟨.error e, t1, fs1, true⟩
      | .ok synced_commands =>
        match
          (match t1.current_hex with
           | some h =>
             if h = "" then AutoSyncTree.generate_hex hexdigest t1 guild else (h, t1)
           | none => AutoSyncTree.generate_hex hexdigest t1 guild) with
        | (new_hex, t2) =>
          match t2.config_manager._update fs1 new_hex now with
          | (s3, fs3) => ⟨.ok synced_commands, { t2 with config_manager := s3 }, fs3, true⟩

/-! ## debugger.py -/

/-- The discord.py AppInstallationType: tri-state install flags (`_guild`,
`_user`); the boolean convenience properties read an unset flag as false. -/
structure AppInstallationType where
  guild_flag : Option Bool
  user_flag : Option Bool
  deriving DecidableEq, Repr

def AppInstallationType.guild (x : AppInstallationType) : Bool :=
  x.guild_flag.getD false

def AppInstallationType.user (x : AppInstallationType) : Bool :=
  x.user_flag.getD false

/-- The discord.py AppCommandContext: tri-state usage-context flags. -/
structure AppCommandContext where
  guild_flag : Option Bool
  dm_channel_flag : Option Bool
  private_channel_flag : Option Bool
  deriving DecidableEq, Repr

def AppCommandContext.guild (x : AppCommandContext) : Bool :=
  x.guild_flag.getD false

def AppCommandContext.dm_channel (x : AppCommandContext) : Bool :=
  x.dm_channel_flag.getD false

def AppCommandContext.private_channel (x : AppCommandContext) : Bool :=
  x.private_channel_flag.getD false

/-- A command as the debugger sees it (the CommandT union, debugger.py lines
26-31): a name plus optional declared install and context capabilities. -/
structure DCommand where
  name : String
  allowed_installs : Option AppInstallationType
  allowed_contexts : Option AppCommandContext
  deriving DecidableEq, Repr

/-- Model of `SoheabsTreeDebugger` (debugger.py lines 67-97): the tree-level allowed
contexts and installs captured at construction, and the application-level
integration configs fetched by `store_application` (modelled as the
truthiness of each config object, `none` when the application reports no such
config). -/
structure SoheabsTreeDebugger where
  global_allowed_contexts : AppCommandContext
  global_allowed_installs : AppInstallationType
  app_guild_installable : Option Bool
  app_user_installable : Option Bool
  deriving DecidableEq, Repr

/-- Model of `__is_bot_guild_installable` (lines 113-120). -/
def SoheabsTreeDebugger.is_bot_guild_installable (d : SoheabsTreeDebugger) : Bool :=
  match d.global_allowed_installs.guild_flag with
  | some _ => d.global_allowed_installs.guild
  | none =>
    match d.app_guild_installable with
    | some b => b
    | none => d.global_allowed_installs.guild

/-- Model of `__is_bot_user_installable` (lines 122-129). -/
def SoheabsTreeDebugger.is_bot_user_installable (d : SoheabsTreeDebugger) : Bool :=
  match d.global_allowed_installs.user_flag with
  | some _ => d.global_allowed_installs.user
  | none =>
    match d.app_user_installable with
    | some b => b
    | none => d.global_allowed_installs.user

/-- Model of `__is_bot_guild_usable` (lines 131-135). -/
def SoheabsTreeDebugger.is_bot_guild_usable (d : SoheabsTreeDebugger) : Bool :=
  match d.global_allowed_contexts.guild_flag with
  | some _ => d.global_allowed_contexts.guild
  | none => true

/-- Model of `__is_bot_dm_usable` (lines 137-141). -/
def SoheabsTreeDebugger.is_bot_dm_usable (d : SoheabsTreeDebugger) : Bool :=
  match d.global_allowed_contexts.dm_channel_flag with
  | some _ => d.global_allowed_contexts.dm_channel
  | none => true

/-- Model of `__is_bot_private_channel_usable` (lines 143-147). -/
def SoheabsTreeDebugger.is_bot_private_channel_usable (d : SoheabsTreeDebugger) : Bool :=
  match d.global_allowed_contexts.private_channel_flag with
  | some _ => d.global_allowed_contexts.private_channel
  | none => true

/-- Model of `__is_command_guild_installable` (lines 149-151). -/
def is_command_guild_installable (c : DCommand) : Bool :=
  match c.allowed_installs with
  | some ai => ai.guild
  | none => true

/-- Model of `__is_command_user_installable` (lines 153-155). -/
def is_command_user_installable (c : DCommand) : Bool :=
  match c.allowed_installs with
  | some ai => ai.user
  | none => false

/-- Model of `__is_command_guild_usable` (lines 157-159). -/
def is_command_guild_usable (c : DCommand) : Bool :=
  match c.allowed_contexts with
  | some ac => ac.guild
  | none => true

/-- Model of `__is_command_dm_usable` (lines 161-163). -/
def is_command_dm_usable (c : DCommand) : Bool :=
  match c.allowed_contexts with
  | some ac => ac.dm_channel
  | none => true

/-- Model of `__is_command_private_channel_usable` (lines 165-169). -/
def is_command_private_channel_usable (c : DCommand) : Bool :=
  match c.allowed_contexts with
  | some ac => ac.private_channel
  | none => false

/-- The ValueError raised by `check_command` or `check`, as a structured value
carrying the offending command name (the constructor says which of the five
capability checks failed, in source order). -/
inductive ValidationError where
  | guild_installable (name : String)
  | user_installable (name : String)
  | guild_usable (name : String)
  | dm_usable (name : String)
  | private_channel_usable (name : String)
  | no_commands
  deriving DecidableEq, Repr

/-- Model of `_DebugableCommand` (debugger.py lines 38-54). -/
structure DebugableCommand where
  command : DCommand
  is_guild_installable : Bool
  is_user_installable : Bool
  is_guild_usable : Bool
  is_dm_usable : Bool
  is_private_channel_usable : Bool
  deriving DecidableEq, Repr

/-- Model of `SoheabsTreeDebugger.check_command` (lines 181-217): compute the five
per-command flags and raise on the first flag the bot-level policy cannot
honour, in source order; otherwise return the `_DebugableCommand`. -/
def SoheabsTreeDebugger.check_command (d : SoheabsTreeDebugger) (c : DCommand) :
    Except ValidationError DebugableCommand :=
  let gi := is_command_guild_installable c
  let ui := is_command_user_installable c
  let gu := is_command_guild_usable c
  let dm := is_command_dm_usable c
  let pc := is_command_private_channel_usable c
  if gi && !d.is_bot_guild_installable then .error (.guild_installable c.name)
  else if ui && !d.is_bot_user_installable then .error (.user_installable c.name)
  else if gu && !d.is_bot_guild_usable then .error (.guild_usable c.name)
  else if dm && !d.is_bot_dm_usable then .error (.dm_usable c.name)
  else if pc && !d.is_bot_private_channel_usable then
    .error (.private_channel_usable c.name)
  else .ok ⟨c, gi, ui, gu, dm, pc⟩

/-- The loop at lines 255-258: check the commands in order; the first raised
error propagates and the rest of `check` never runs. -/
def checkCommands (d : SoheabsTreeDebugger) :
    List DCommand → Except ValidationError (List DebugableCommand)
  | [] => .ok []
  | c :: rest =>
    match d.check_command c with
    | .error e => .error e
    | .ok dc =>
      match checkCommands d rest with
      | .error e => .error e
      | .ok dcs => .ok (dc :: dcs)

/-- The bot block of the `debug_info` dict (lines 261-267). -/
structure BotReport where
  guild_installable : Bool
  user_installable : Bool
  guild_usable : Bool
  dm_usable : Bool
  private_channel_usable : Bool
  deriving DecidableEq, Repr

/-- One per-command entry of the `debug_info` dict (lines 268-278). -/
structure CommandReportEntry where
  name : String
  guild_installable : Bool
  user_installable : Bool
  guild_usable : Bool
  dm_usable : Bool
  private_channel_usable : Bool
  deriving DecidableEq, Repr

/-- The emitted report: the `debug_info.json` contents plus the printed text
carry exactly these flags (lines 260-286). -/
structure Report where
  bot : BotReport
  commands : List CommandReportEntry
  deriving DecidableEq, Repr

/-- Building the report from the checked commands (lines 260-279). -/
def mkReport (d : SoheabsTreeDebugger) (dcs : List DebugableCommand) : Report :=
  { bot := ⟨d.is_bot_guild_installable, d.is_bot_user_installable,
      d.is_bot_guild_usable, d.is_bot_dm_usable, d.is_bot_private_channel_usable⟩
    commands := dcs.map fun dc =>
      ⟨dc.command.name, dc.is_guild_installable, dc.is_user_installable,
        dc.is_guild_usable, dc.is_dm_usable, dc.is_private_channel_usable⟩ }

/-- Model of `SoheabsTreeDebugger.check` for the global scope (guild=None; lines
219-286, the guild-specific block skipped): raise when there are no commands,
then validate each command in order — the first failure propagates and nothing
below runs — then build and emit the report (the `debug_info.json` write plus
the printed text). The second component is the emitted report: `none` when
the check raised, so a raised check emits no report at all. -/
def SoheabsTreeDebugger.check (d : SoheabsTreeDebugger) (cmds : List DCommand) :
    Except ValidationError Unit × Option Report :=
  if cmds = [] then (.error .no_commands, none)
  else
    match checkCommands d cmds with
    | .error e => (.error e, none)
    | .ok dcs => (.ok (), some (mkReport d dcs))

/-! ## Helper characterizations and concrete instances

The `…At`/`…Of` functions below are pure characterizations of the state-passing
operations above, proved equal to them (at a populated config cache) in the
lemmas that follow; the concrete `wit…` instances feed the witnesses and
counterexamples.
-/

/-- How `last_synced_at` reads a stored timestamp (autosync.py lines 121-124):
Python falsiness turns both absence and `0` into `None`. -/
def lastSyncedOf : Option Int → Option Int
  | none => none
  | some ts => if ts = 0 then none else some ts

/-- Pure form of the `can_sync` decision (lines 218-230), given the cached
config fields. -/
def canSyncAt (mi : Option Int) (lastTs : Option Int) (now : Int) : Bool :=
  match mi, lastSyncedOf lastTs with
  | none, _ => true
  | _, none => true
  | some interval, some ls => decide (now - ls ≥ interval)

/-- A concrete stand-in for the external hash pipeline, used by witnesses. -/
def natHex : List Nat → String :=
  fun l => "hex" ++ toString (l.foldl (fun a b => a * 31 + b) 7)

/-- An empty filesystem. -/
def emptyFS : FileSystem := fun _ => none

/-- A store whose cache holds the absent/absent record (the state right after
construction over a missing or corrupted file). -/
def witStore : SaveConfig := ⟨"d", "f", none, some ⟨none, none⟩⟩

/-- A store whose cache records a successful sync at time `ts` with hex
`"abc"`. -/
def witStoreAt (ts : Int) : SaveConfig := ⟨"d", "f", none, some ⟨some ts, some ("abc")⟩⟩

/-- Tree with two global commands, in one order. -/
def witTreeA : AutoSyncTree Nat :=
  ⟨witStore, some 300, none, fun _ => [⟨"ban", 1⟩, ⟨"kick", 2⟩]⟩

/-- The same command set in the other order. -/
def witTreeB : AutoSyncTree Nat :=
  ⟨witStore, some 300, none, fun _ => [⟨"kick", 2⟩, ⟨"ban", 1⟩]⟩

/-- Tree whose store recorded a sync at `ts` (interval 300 seconds). -/
def witTreeAt (ts : Int) : AutoSyncTree Nat :=
  ⟨witStoreAt ts, some 300, none, fun _ => [⟨"ban", 1⟩]⟩

/-- Tree whose store holds a stored hex `""` (a tampered state file), with no
minimal interval. -/
def witTreeEmptyHex : AutoSyncTree Nat :=
  ⟨⟨"d", "f", none, some ⟨none, some ("")⟩⟩, none, none, fun _ => [⟨"ban", 1⟩]⟩

/-- A store with a populated cache and a cached resolved path, as it stands
after a successful sync. -/
def witStoreSynced : SaveConfig := ⟨"d", "f", some ⟨"d", "f"⟩, some ⟨some 5, some ("abc")⟩⟩

/-- Tree with different global and guild command sets and a recorded sync,
with no minimal interval. -/
def witTreeScoped : AutoSyncTree Nat :=
  ⟨⟨"d", "f", none, some ⟨some 500, some ("stored")⟩⟩, none, none,
    fun g => match g with
      | none => [⟨"ban", 1⟩]
      | some _ => [⟨"guildcmd", 9⟩]⟩

/-- A debugger policy whose application config makes the bot guild
installable, everything else unset. -/
def witDebugger : SoheabsTreeDebugger := ⟨⟨none, none, none⟩, ⟨none, none⟩, some true, none⟩

/-- A command with no declared capability overrides: it passes
`check_command` under `witDebugger`. -/
def witGoodCmd : DCommand := ⟨"ping", none, none⟩

/-- A command declared user-installable: under `witDebugger` the bot is not
user installable, so `check_command` raises on it. -/
def witBadCmd : DCommand := ⟨"installme", some ⟨none, some true⟩, none⟩

/-! ## Shared lemmas -/

theorem get_config_cached (s : SaveConfig) (fs : FileSystem) (c : SavedConfig)
    (hc : s.config = some c) : s.get_config fs false = (c, s, fs) := by
  unfold SaveConfig.get_config
  rw [hc]

theorem last_synced_at_cached (s : SaveConfig) (fs : FileSystem) (c : SavedConfig)
    (hc : s.config = some c) :
    s.last_synced_at fs = (lastSyncedOf c.last_timestamp, s, fs) := by
  unfold SaveConfig.last_synced_at lastSyncedOf
  rw [get_config_cached s fs c hc]

theorem last_hex_cached (s : SaveConfig) (fs : FileSystem) (c : SavedConfig)
    (hc : s.config = some c) :
    s.last_hex fs = (c.last_hex, s, fs) := by
  unfold SaveConfig.last_hex
  rw [get_config_cached s fs c hc]

theorem can_sync_cached (t : AutoSyncTree P) (fs : FileSystem) (now : Int)
    (c : SavedConfig) (hc : t.config_manager.config = some c) :
    t.can_sync fs now =
      (canSyncAt t.minimal_sync_interval c.last_timestamp now, t, fs) := by
  obtain ⟨cm, mi, ch, cmds⟩ := t
  unfold AutoSyncTree.can_sync canSyncAt
  rw [last_synced_at_cached _ fs c hc]
  rcases mi with _ | interval <;>
    rcases lastSyncedOf c.last_timestamp with _ | ls <;> rfl

theorem generate_hex_fst (hexdigest : List P → String) (t : AutoSyncTree P)
    (guild : Option Int) :
    (AutoSyncTree.generate_hex hexdigest t guild).1 =
      hexdigest (((t.commands guild).mergeSort cmdLE).map (·.payload)) := rfl

theorem generate_hex_snd (hexdigest : List P → String) (t : AutoSyncTree P)
    (guild : Option Int) :
    (AutoSyncTree.generate_hex hexdigest t guild).2 =
      { t with current_hex := some (AutoSyncTree.generate_hex hexdigest t guild).1 } := rfl

theorem should_sync_cached (hexdigest : List P → String) (t : AutoSyncTree P)
    (fs : FileSystem) (now : Int) (c : SavedConfig)
    (hc : t.config_manager.config = some c) :
    AutoSyncTree.should_sync hexdigest t fs now =
      if canSyncAt t.minimal_sync_interval c.last_timestamp now = false then
        ⟨false, false, t, fs⟩
      else
        ⟨decide (c.last_hex ≠ some (AutoSyncTree.generate_hex hexdigest t none).1),
         (match c.last_hex with
          | some s =>
            (s != "") && (s.length != (AutoSyncTree.generate_hex hexdigest t none).1.length)
          | none => false),
         (AutoSyncTree.generate_hex hexdigest t none).2, fs⟩ := by
  obtain ⟨cm, mi, ch, cmds⟩ := t
  unfold AutoSyncTree.should_sync
  rw [can_sync_cached _ fs now c hc]
  cases hcs : canSyncAt mi c.last_timestamp now
  · rfl
  · simp only [Bool.true_eq_false, if_false]
    rw [last_hex_cached cm fs c hc]

theorem _update_cached (s : SaveConfig) (fs : FileSystem) (new_hex : String)
    (now : Int) (c : SavedConfig) (hc : s.config = some c) :
    s._update fs new_hex now =
      ({ (s.path fs).2.1 with config := some ⟨some now, some new_hex⟩ },
        ((s.path fs).2.2).write (s.path fs).1 (.valid now new_hex)) := by
  unfold SaveConfig._update
  rw [get_config_cached s fs c hc]

theorem sync_of_should_sync_false (hexdigest : List P → String) (t : AutoSyncTree P)
    (fs : FileSystem) (now : Int) (guild : Option Int) (transport : Except ε (List R))
    (hfalse : (AutoSyncTree.should_sync hexdigest t fs now).res = false) :
    AutoSyncTree.sync hexdigest t fs now guild transport =
      ⟨.ok [], (AutoSyncTree.should_sync hexdigest t fs now).tree,
       (AutoSyncTree.should_sync hexdigest t fs now).fs, false⟩ := by
  unfold AutoSyncTree.sync
  rcases hss : AutoSyncTree.should_sync hexdigest t fs now with ⟨res, w, t1, fs1⟩
  rw [hss] at hfalse
  simp only at hfalse
  subst hfalse
  rfl

theorem sync_of_transport_error (hexdigest : List P → String) (t : AutoSyncTree P)
    (fs : FileSystem) (now : Int) (guild : Option Int) (e : ε)
    (htrue : (AutoSyncTree.should_sync hexdigest t fs now).res = true) :
    AutoSyncTree.sync (R := R) hexdigest t fs now guild (.error e) =
      ⟨.error e, (AutoSyncTree.should_sync hexdigest t fs now).tree,
       (AutoSyncTree.should_sync hexdigest t fs now).fs, true⟩ := by
  unfold AutoSyncTree.sync
  rcases hss : AutoSyncTree.should_sync hexdigest t fs now with ⟨res, w, t1, fs1⟩
  rw [hss] at htrue
  simp only at htrue
  subst htrue
  rfl

theorem sync_of_ok (hexdigest : List P → String) (t : AutoSyncTree P)
    (fs : FileSystem) (now : Int) (guild : Option Int) (res : List R)
    (c : SavedConfig) (hc : t.config_manager.config = some c)
    (htrue : (AutoSyncTree.should_sync hexdigest t fs now).res = true)
    (hne : (AutoSyncTree.generate_hex hexdigest t none).1 ≠ "") :
    AutoSyncTree.sync (ε := ε) hexdigest t fs now guild (.ok res) =
      ⟨.ok res,
       { t with
           current_hex := some (AutoSyncTree.generate_hex hexdigest t none).1,
           config_manager := { (t.config_manager.path fs).2.1 with
             config := some ⟨some now, some (AutoSyncTree.generate_hex hexdigest t none).1⟩ } },
       ((t.config_manager.path fs).2.2).write (t.config_manager.path fs).1
         (.valid now (AutoSyncTree.generate_hex hexdigest t none).1),
       true⟩ := by
  have hss := should_sync_cached hexdigest t fs now c hc
  by_cases hcs : canSyncAt t.minimal_sync_interval c.last_timestamp now = false
  · rw [hss, if_pos hcs] at htrue
    simp at htrue
  · rw [if_neg hcs] at hss
    unfold AutoSyncTree.sync
    rw [hss] at htrue ⊢
    simp only at htrue ⊢
    rw [htrue]
    simp only [Bool.true_eq_false, if_false]
    rw [generate_hex_snd]
    simp only
    rw [if_neg hne]
    rw [_update_cached _ fs _ now c hc]

theorem cmdLE_trans (a b c : Command P) : cmdLE a b → cmdLE b c → cmdLE a c := by
  intro hab hbc
  simp only [cmdLE, decide_eq_true_eq] at hab hbc ⊢
  exact le_trans hab hbc

theorem cmdLE_total (a b : Command P) : cmdLE a b || cmdLE b a := by
  simp only [cmdLE]
  by_cases h : a.qualified_name ≤ b.qualified_name
  · simp [h]
  · simp [le_of_not_le h]

theorem mergeSort_eq_of_perm_of_nodup_names {l l' : List (Command P)}
    (hperm : l.Perm l')
    (hnodup : (l.map Command.qualified_name).Nodup) :
    l.mergeSort cmdLE = l'.mergeSort cmdLE := by
  haveI : IsAntisymm (Command P)
      (fun a b => a.qualified_name < b.qualified_name) :=
    ⟨fun a b h h1 => absurd h1 (lt_asymm h)⟩
  have hp : (l.mergeSort cmdLE).Perm (l'.mergeSort cmdLE) :=
    (List.mergeSort_perm l cmdLE).trans (hperm.trans (List.mergeSort_perm l' cmdLE).symm)
  have hnodup1 : ((l.mergeSort cmdLE).map Command.qualified_name).Nodup :=
    (((List.mergeSort_perm l cmdLE).map Command.qualified_name).nodup_iff).mpr hnodup
  have hnodup2 : ((l'.mergeSort cmdLE).map Command.qualified_name).Nodup :=
    ((hp.symm.trans (List.mergeSort_perm l cmdLE)).map Command.qualified_name).nodup_iff.mpr
      hnodup
  have strict : ∀ m : List (Command P), m.Pairwise (fun a b => cmdLE a b = true) →
      (m.map Command.qualified_name).Nodup →
      m.Pairwise (fun a b => a.qualified_name < b.qualified_name) := by
    intro m hle hnd
    have hne : m.Pairwise (fun a b : Command P => a.qualified_name ≠ b.qualified_name) :=
      List.pairwise_map.mp hnd
    have hle2 : m.Pairwise (fun a b : Command P => a.qualified_name ≤ b.qualified_name) :=
      hle.imp (by intro a b h; simpa [cmdLE, decide_eq_true_eq] using h)
    exact (hle2.and hne).imp (fun h => lt_of_le_of_ne h.1 h.2)
  have hs1 := strict _ (List.sorted_mergeSort cmdLE_trans cmdLE_total l) hnodup1
  have hs2 := strict _ (List.sorted_mergeSort cmdLE_trans cmdLE_total l') hnodup2
  exact List.eq_of_perm_of_sorted hp hs1 hs2

/-! ## Claim theorems -/

/-- Claim C1: for every finite command set and every permutation of it — the
qualified names being pairwise distinct, as they are within one CommandTree
scope — `generate_hex` yields the identical digest string, because it sorts
the commands by qualified name before serialization and hashing. -/
theorem generate_hex_perm_invariant (hexdigest : List P → String)
    (t t' : AutoSyncTree P) (guild : Option Int)
    (hperm : (t.commands guild).Perm (t'.commands guild))
    (hnodup : ((t.commands guild).map Command.qualified_name).Nodup) :
    (AutoSyncTree.generate_hex hexdigest t guild).1 =
      (AutoSyncTree.generate_hex hexdigest t' guild).1 := by
  rw [generate_hex_fst, generate_hex_fst,
    mergeSort_eq_of_perm_of_nodup_names hperm hnodup]

/-- Witness for C1: two concrete two-command sets that are permutations of
each other digest identically. -/
theorem generate_hex_perm_invariant_witness :
    (witTreeA.commands none).Perm (witTreeB.commands none) ∧
    ((witTreeA.commands none).map Command.qualified_name).Nodup ∧
    (AutoSyncTree.generate_hex natHex witTreeA none).1 =
      (AutoSyncTree.generate_hex natHex witTreeB none).1 :=
  ⟨by decide, by decide,
    generate_hex_perm_invariant natHex witTreeA witTreeB none (by decide) (by decide)⟩

/-- Claim C3: `can_sync` is true exactly when no minimal interval is
configured, or no prior successful sync is recorded, or
`now - lastSyncTime >= minimalInterval`; in particular, with a 300 second
interval it is false when the recorded sync is 100 seconds old, true at 301
seconds, and true whenever no prior sync is recorded, regardless of the
interval. -/
theorem can_sync_spec :
    (∀ (P : Type) (t : AutoSyncTree P) (fs : FileSystem) (now : Int),
      ((t.can_sync fs now).1 = true ↔
        t.minimal_sync_interval = none ∨
        (t.config_manager.last_synced_at fs).1 = none ∨
        (∃ interval ls, t.minimal_sync_interval = some interval ∧
          (t.config_manager.last_synced_at fs).1 = some ls ∧ now - ls ≥ interval))) ∧
    (AutoSyncTree.can_sync (witTreeAt 999900) emptyFS 1000000).1 = false ∧
    (AutoSyncTree.can_sync (witTreeAt 999699) emptyFS 1000000).1 = true ∧
    (∀ (mi : Option Int) (now : Int),
      (AutoSyncTree.can_sync (⟨witStore, mi, none, fun _ => []⟩ : AutoSyncTree Nat)
        emptyFS now).1 = true) := by
  refine ⟨?_, by decide, by decide, ?_⟩
  · intro P t fs now
    rcases hls : t.config_manager.last_synced_at fs with ⟨ls, s1, fs1⟩
    unfold AutoSyncTree.can_sync
    rw [hls]
    rcases t.minimal_sync_interval with _ | interval <;> rcases ls with _ | l <;> simp
  · intro mi now
    rw [can_sync_cached _ _ _ ⟨none, none⟩ rfl]
    show canSyncAt mi none now = true
    rcases mi with _ | i <;> rfl

/-- Witness for C3 (the two universally quantified parts applied at concrete
inputs; the two concrete parts restated). -/
theorem can_sync_spec_witness :
    ((AutoSyncTree.can_sync (witTreeAt 999900) emptyFS 1000000).1 = true ↔
      ((witTreeAt 999900).minimal_sync_interval = none ∨
        ((witTreeAt 999900).config_manager.last_synced_at emptyFS).1 = none ∨
        (∃ interval ls, (witTreeAt 999900).minimal_sync_interval = some interval ∧
          ((witTreeAt 999900).config_manager.last_synced_at emptyFS).1 = some ls ∧
          (1000000 : Int) - ls ≥ interval))) ∧
    (AutoSyncTree.can_sync (⟨witStore, some 300, none, fun _ => []⟩ : AutoSyncTree Nat)
      emptyFS 7).1 = true :=
  ⟨can_sync_spec.1 Nat (witTreeAt 999900) emptyFS 1000000,
    can_sync_spec.2.2.2 (some 300) 7⟩

/-- Claim C10: a persisted `last_timestamp` of `0` (the Unix epoch) is treated
as if no sync ever occurred: `last_synced_at` returns `None` for it, so
`can_sync` returns true regardless of the configured minimal interval. -/
theorem timestamp_zero_means_never_synced :
    (∀ (s : SaveConfig) (fs : FileSystem) (c : SavedConfig),
      s.config = some c → c.last_timestamp = some 0 →
      (s.last_synced_at fs).1 = none) ∧
    (∀ (P : Type) (t : AutoSyncTree P) (fs : FileSystem) (now : Int) (c : SavedConfig),
      t.config_manager.config = some c → c.last_timestamp = some 0 →
      (t.can_sync fs now).1 = true) := by
  constructor
  · intro s fs c hc ht
    rw [last_synced_at_cached s fs c hc]
    simp [lastSyncedOf, ht]
  · intro P t fs now c hc ht
    rw [can_sync_cached t fs now c hc]
    show canSyncAt t.minimal_sync_interval c.last_timestamp now = true
    have hnone : lastSyncedOf c.last_timestamp = none := by
      rw [ht]; simp [lastSyncedOf]
    unfold canSyncAt
    rw [hnone]
    rcases t.minimal_sync_interval with _ | i <;> rfl

/-- Witness for C10: a store whose file recorded timestamp 0. -/
theorem timestamp_zero_means_never_synced_witness :
    ((witStoreAt 0).last_synced_at emptyFS).1 = none ∧
    (AutoSyncTree.can_sync (witTreeAt 0) emptyFS 50).1 = true :=
  ⟨timestamp_zero_means_never_synced.1 (witStoreAt 0) emptyFS ⟨some 0, some ("abc")⟩ rfl rfl,
    timestamp_zero_means_never_synced.2 Nat (witTreeAt 0) emptyFS 50 ⟨some 0, some ("abc")⟩
      rfl rfl⟩

theorem natHex_ne_empty (l : List Nat) : natHex l ≠ "" := by
  intro h
  have hlen := congrArg String.length h
  simp [natHex] at hlen
  exact absurd hlen.1 (by decide)

theorem decode_ensure_of_decode_none (fs : FileSystem) (p : ConfigPath)
    (hbad : decodeConfig (fs p) = none) :
    decodeConfig ((ensurePathExists fs p) p) = none := by
  unfold ensurePathExists
  rcases h : fs p with _ | c
  · simp [FileSystem.write, decodeConfig]
  · show decodeConfig (fs p) = none
    exact hbad

theorem make_of_decode_none (dir fn : String) (fs : FileSystem)
    (hbad : decodeConfig (fs ⟨dir, fn⟩) = none) :
    (SaveConfig.make dir fn fs).1.config = some ⟨none, none⟩ := by
  unfold SaveConfig.make SaveConfig.get_config SaveConfig.path
  simp only
  rw [decode_ensure_of_decode_none fs ⟨dir, fn⟩ hbad]

/-- Claim C5: for every backing-file content that fails to read or decode
(missing file, invalid JSON, wrong or missing fields), loading does not fail:
the constructed store carries the absent/absent record, and a subsequent
`should_sync` — the interval gate passes vacuously, since no last sync is
recorded — returns true, forcing a resync. -/
theorem corrupted_state_recovery (hexdigest : List P → String)
    (dir fn : String) (fs : FileSystem)
    (hbad : decodeConfig (fs ⟨dir, fn⟩) = none)
    (mi : Option Int) (ch : Option String)
    (cmds : Option Int → List (Command P)) (now : Int) :
    (SaveConfig.make dir fn fs).1.config = some ⟨none, none⟩ ∧
    (AutoSyncTree.should_sync hexdigest
        ⟨(SaveConfig.make dir fn fs).1, mi, ch, cmds⟩
        (SaveConfig.make dir fn fs).2 now).res = true := by
  have h1 := make_of_decode_none dir fn fs hbad
  refine ⟨h1, ?_⟩
  rw [should_sync_cached hexdigest _ _ now ⟨none, none⟩ h1]
  have hcs : canSyncAt mi (none : Option Int) now = true := by
    rcases mi with _ | i <;> rfl
  simp [hcs]

/-- Witness for C5: a missing backing file (the store then creates it holding
an empty JSON object, which does not decode). -/
theorem corrupted_state_recovery_witness :
    decodeConfig (emptyFS ⟨"d", "f"⟩) = none ∧
    (SaveConfig.make ("d") ("f") emptyFS).1.config = some ⟨none, none⟩ ∧
    (AutoSyncTree.should_sync natHex
        ⟨(SaveConfig.make ("d") ("f") emptyFS).1, some 300, none, fun _ => [⟨"ban", 1⟩]⟩
        (SaveConfig.make ("d") ("f") emptyFS).2 77).res = true :=
  ⟨rfl, corrupted_state_recovery natHex ("d") ("f") emptyFS rfl (some 300) none
    (fun _ => [⟨"ban", 1⟩]) 77⟩

/-- Claim C2: for every sync attempt in which `should_sync` decided true but
the transport call fails, the error propagates to the caller unmodified, the
persisted state — the in-memory config cache and the backing file — is left
exactly at its pre-call value, and the next `should_sync` on the resulting
state reaches the same needs-sync determination. -/
theorem sync_transport_error_preserves_state (hexdigest : List P → String)
    (t : AutoSyncTree P) (fs : FileSystem) (now : Int) (guild : Option Int)
    (c : SavedConfig) (hc : t.config_manager.config = some c)
    (htrue : (AutoSyncTree.should_sync hexdigest t fs now).res = true) (e : ε) :
    (AutoSyncTree.sync (R := R) hexdigest t fs now guild (.error e)).result = .error e ∧
    (AutoSyncTree.sync (R := R) hexdigest t fs now guild (.error e)).tree.config_manager
      = t.config_manager ∧
    (AutoSyncTree.sync (R := R) hexdigest t fs now guild (.error e)).fs = fs ∧
    (AutoSyncTree.should_sync hexdigest
        (AutoSyncTree.sync (R := R) hexdigest t fs now guild (.error e)).tree
        (AutoSyncTree.sync (R := R) hexdigest t fs now guild (.error e)).fs now).res
      = true := by
  have hss := should_sync_cached hexdigest t fs now c hc
  by_cases hcs : canSyncAt t.minimal_sync_interval c.last_timestamp now = false
  · rw [hss, if_pos hcs] at htrue
    simp at htrue
  · rw [if_neg hcs] at hss
    rw [hss] at htrue
    have hrw := sync_of_transport_error (R := R) hexdigest t fs now guild e
      (by rw [hss]; exact htrue)
    rw [hrw, hss]
    refine ⟨rfl, rfl, rfl, ?_⟩
    show (AutoSyncTree.should_sync hexdigest
        (AutoSyncTree.generate_hex hexdigest t none).2 fs now).res = true
    rw [should_sync_cached hexdigest ((AutoSyncTree.generate_hex hexdigest t none).2) fs now c
        (show (AutoSyncTree.generate_hex hexdigest t none).2.config_manager.config = some c
          from hc),
      if_neg (show ¬(canSyncAt
          (AutoSyncTree.generate_hex hexdigest t none).2.minimal_sync_interval
          c.last_timestamp now = false) from hcs)]
    exact htrue

/-- Witness for C2: transport failure on a fresh store propagates and mutates
nothing. -/
theorem sync_transport_error_witness :
    witTreeA.config_manager.config = some ⟨none, none⟩ ∧
    (AutoSyncTree.should_sync natHex witTreeA emptyFS 1000).res = true ∧
    ((AutoSyncTree.sync (R := Nat) natHex witTreeA emptyFS 1000 none
        (.error ("boom"))).result = .error ("boom") ∧
      (AutoSyncTree.sync (R := Nat) natHex witTreeA emptyFS 1000 none
        (.error ("boom"))).tree.config_manager = witTreeA.config_manager ∧
      (AutoSyncTree.sync (R := Nat) natHex witTreeA emptyFS 1000 none
        (.error ("boom"))).fs = emptyFS ∧
      (AutoSyncTree.should_sync natHex
        (AutoSyncTree.sync (R := Nat) natHex witTreeA emptyFS 1000 none (.error ("boom"))).tree
        (AutoSyncTree.sync (R := Nat) natHex witTreeA emptyFS 1000 none (.error ("boom"))).fs
        1000).res = true) :=
  ⟨rfl, by decide,
    sync_transport_error_preserves_state natHex witTreeA emptyFS 1000 none ⟨none, none⟩ rfl
      (by decide) "boom"⟩

theorem sync_second_noop (hexdigest : List P → String)
    (t : AutoSyncTree P) (fs : FileSystem) (now : Int) (guild : Option Int)
    (transport : Except ε (List R)) (c : SavedConfig)
    (hc : t.config_manager.config = some c)
    (hlast : c.last_hex = some (AutoSyncTree.generate_hex hexdigest t none).1) :
    (AutoSyncTree.sync hexdigest t fs now guild transport).result = .ok [] ∧
    (AutoSyncTree.sync hexdigest t fs now guild transport).transport_invoked = false := by
  have hss := should_sync_cached hexdigest t fs now c hc
  have hres : (AutoSyncTree.should_sync hexdigest t fs now).res = false := by
    by_cases hcs : canSyncAt t.minimal_sync_interval c.last_timestamp now = false
    · rw [hss, if_pos hcs]
    · rw [hss, if_neg hcs]
      show decide (c.last_hex ≠ some (AutoSyncTree.generate_hex hexdigest t none).1) = false
      rw [hlast]
      simp
  rw [sync_of_should_sync_false hexdigest t fs now guild transport hres]
  exact ⟨rfl, rfl⟩

/-- Claim C7: calling sync twice in succession — the first transport outcome
successful, no change to the command set, the clock unchanged — yields the
empty result set on the second call and does not invoke the transport there,
so the transport runs at most once across the two calls. -/
theorem sync_idempotent (hexdigest : List P → String)
    (hnz : ∀ l, hexdigest l ≠ "") (t : AutoSyncTree P) (fs : FileSystem)
    (now : Int) (guild : Option Int) (res : List R) (c : SavedConfig)
    (hc : t.config_manager.config = some c) (transport2 : Except ε (List R)) :
    (AutoSyncTree.sync hexdigest
        (AutoSyncTree.sync (ε := ε) hexdigest t fs now guild (.ok res)).tree
        (AutoSyncTree.sync (ε := ε) hexdigest t fs now guild (.ok res)).fs
        now guild transport2).result = .ok [] ∧
    (AutoSyncTree.sync hexdigest
        (AutoSyncTree.sync (ε := ε) hexdigest t fs now guild (.ok res)).tree
        (AutoSyncTree.sync (ε := ε) hexdigest t fs now guild (.ok res)).fs
        now guild transport2).transport_invoked = false := by
  by_cases hres : (AutoSyncTree.should_sync hexdigest t fs now).res = true
  · have hne : (AutoSyncTree.generate_hex hexdigest t none).1 ≠ "" := by
      rw [generate_hex_fst]; exact hnz _
    rw [sync_of_ok hexdigest t fs now guild res c hc hres hne]
    exact sync_second_noop hexdigest _ _ now guild transport2
      ⟨some now, some (AutoSyncTree.generate_hex hexdigest t none).1⟩ rfl rfl
  · have hres' : (AutoSyncTree.should_sync hexdigest t fs now).res = false := by
      simpa using hres
    rw [sync_of_should_sync_false hexdigest t fs now guild (.ok res) hres']
    have hss := should_sync_cached hexdigest t fs now c hc
    by_cases hcs : canSyncAt t.minimal_sync_interval c.last_timestamp now = false
    · rw [hss, if_pos hcs]
      show (AutoSyncTree.sync hexdigest t fs now guild transport2).result = .ok [] ∧
        (AutoSyncTree.sync hexdigest t fs now guild transport2).transport_invoked = false
      rw [sync_of_should_sync_false hexdigest t fs now guild transport2 hres']
      exact ⟨rfl, rfl⟩
    · rw [hss, if_neg hcs]
      have hEq : c.last_hex = some (AutoSyncTree.generate_hex hexdigest t none).1 := by
        have h2 := hres'
        rw [hss, if_neg hcs] at h2
        simpa using h2
      show (AutoSyncTree.sync hexdigest (AutoSyncTree.generate_hex hexdigest t none).2 fs now
          guild transport2).result = .ok [] ∧
        (AutoSyncTree.sync hexdigest (AutoSyncTree.generate_hex hexdigest t none).2 fs now
          guild transport2).transport_invoked = false
      exact sync_second_noop hexdigest _ fs now guild transport2 c
        (show (AutoSyncTree.generate_hex hexdigest t none).2.config_manager.config = some c
          from hc)
        (show c.last_hex = some (AutoSyncTree.generate_hex hexdigest
          (AutoSyncTree.generate_hex hexdigest t none).2 none).1 from hEq)

/-- Witness for C7: two concrete back-to-back syncs. -/
theorem sync_idempotent_witness :
    (∀ l, natHex l ≠ "") ∧
    witTreeA.config_manager.config = some ⟨none, none⟩ ∧
    ((AutoSyncTree.sync (ε := String) natHex
        (AutoSyncTree.sync (ε := String) natHex witTreeA emptyFS 1000 none (.ok [42])).tree
        (AutoSyncTree.sync (ε := String) natHex witTreeA emptyFS 1000 none (.ok [42])).fs
        1000 none (.ok [43])).result = .ok [] ∧
      (AutoSyncTree.sync (ε := String) natHex
        (AutoSyncTree.sync (ε := String) natHex witTreeA emptyFS 1000 none (.ok [42])).tree
        (AutoSyncTree.sync (ε := String) natHex witTreeA emptyFS 1000 none (.ok [42])).fs
        1000 none (.ok [43])).transport_invoked = false) :=
  ⟨natHex_ne_empty, rfl,
    sync_idempotent natHex natHex_ne_empty witTreeA emptyFS 1000 none [42] ⟨none, none⟩
      rfl (.ok [43])⟩

theorem witScoped_hex :
    (AutoSyncTree.generate_hex natHex witTreeScoped none).1 = "hex218" := by
  rw [generate_hex_fst]
  simp [witTreeScoped]
  rfl

theorem witScoped_guild_hex :
    (AutoSyncTree.generate_hex natHex witTreeScoped (some 1)).1 = "hex226" := by
  rw [generate_hex_fst]
  simp [witTreeScoped]
  rfl

theorem witScoped_should :
    (AutoSyncTree.should_sync natHex witTreeScoped emptyFS 1000).res = true := by
  rw [should_sync_cached natHex witTreeScoped emptyFS 1000 ⟨some 500, some ("stored")⟩ rfl]
  simp only [canSyncAt, lastSyncedOf]
  norm_num
  rw [witScoped_hex]
  decide

/-- Counterexample to C8 as stated: on a tree whose global and guild-1 command
sets differ, a successful sync in the guild-1 scope overwrites the single
stored pair — the very pair should_sync consults for the global scope — and
the fingerprint compared during that sync was the digest of the GLOBAL
command set, which differs from the digest of the guild-1 set. -/
theorem sync_scope_counterexample :
    witTreeScoped.config_manager.config = some ⟨some 500, some ("stored")⟩ ∧
    (AutoSyncTree.sync (ε := String) natHex witTreeScoped emptyFS 1000 (some 1)
        (.ok [42])).result = .ok [42] ∧
    (AutoSyncTree.sync (ε := String) natHex witTreeScoped emptyFS 1000 (some 1)
        (.ok [42])).tree.config_manager.config ≠ some ⟨some 500, some ("stored")⟩ ∧
    (AutoSyncTree.sync (ε := String) natHex witTreeScoped emptyFS 1000 (some 1)
        (.ok [42])).tree.current_hex
      = some (AutoSyncTree.generate_hex natHex witTreeScoped none).1 ∧
    (AutoSyncTree.generate_hex natHex witTreeScoped none).1
      ≠ (AutoSyncTree.generate_hex natHex witTreeScoped (some 1)).1 := by
  have hne : (AutoSyncTree.generate_hex natHex witTreeScoped none).1 ≠ "" := by
    rw [witScoped_hex]; decide
  have h1 := sync_of_ok (ε := String) natHex witTreeScoped emptyFS 1000 (some 1) [42]
    ⟨some 500, some ("stored")⟩ rfl witScoped_should hne
  rw [h1]
  refine ⟨rfl, rfl, ?_, ?_, ?_⟩
  · show some (SavedConfig.mk (some 1000)
        (some (AutoSyncTree.generate_hex natHex witTreeScoped none).1))
      ≠ some ⟨some 500, some ("stored")⟩
    simp
  · rfl
  · rw [witScoped_hex, witScoped_guild_hex]
    decide

/-- Amended C8: the system holds exactly ONE fingerprint/timestamp pair,
shared by every scope: a successful sync in ANY scope overwrites that single
pair with the current time and the digest of the GLOBAL command set (the
change gate always fingerprints guild=None), and the same pair is what the
gates consult for every scope. -/
theorem sync_single_shared_state (hexdigest : List P → String)
    (t : AutoSyncTree P) (fs : FileSystem) (now : Int) (guild : Option Int)
    (res : List R) (c : SavedConfig) (hc : t.config_manager.config = some c)
    (htrue : (AutoSyncTree.should_sync hexdigest t fs now).res = true)
    (hne : (AutoSyncTree.generate_hex hexdigest t none).1 ≠ "") :
    (AutoSyncTree.sync (ε := ε) hexdigest t fs now guild
        (.ok res)).tree.config_manager.config
      = some ⟨some now, some (AutoSyncTree.generate_hex hexdigest t none).1⟩ := by
  rw [sync_of_ok hexdigest t fs now guild res c hc htrue hne]

/-- Witness for the amended C8: the guild-1 sync stores the global digest. -/
theorem sync_single_shared_state_witness :
    (AutoSyncTree.should_sync natHex witTreeScoped emptyFS 1000).res = true ∧
    (AutoSyncTree.sync (ε := String) natHex witTreeScoped emptyFS 1000 (some 1)
        (.ok [42])).tree.config_manager.config
      = some ⟨some 1000, some (AutoSyncTree.generate_hex natHex witTreeScoped none).1⟩ :=
  ⟨witScoped_should,
    sync_single_shared_state natHex witTreeScoped emptyFS 1000 (some 1) [42]
      ⟨some 500, some ("stored")⟩ rfl witScoped_should
      (by rw [witScoped_hex]; decide)⟩

theorem witEmptyHex_hex :
    (AutoSyncTree.generate_hex natHex witTreeEmptyHex none).1 = "hex218" := by
  rw [generate_hex_fst]
  simp [witTreeEmptyHex]
  rfl

/-- Counterexample to C4 as stated: with a stored fingerprint `""` (state-file
tampering), stored and current fingerprints have different lengths, yet the
diagnostic does not fire — the Python truthiness test `if last_hex and ...`
skips the warning for an empty stored hex — although the check still treats
the state as a mismatch and returns true. -/
theorem should_sync_diagnostic_counterexample :
    (witTreeEmptyHex.config_manager.last_hex emptyFS).1 = some ("") ∧
    "".length ≠ (AutoSyncTree.generate_hex natHex witTreeEmptyHex none).1.length ∧
    (AutoSyncTree.should_sync natHex witTreeEmptyHex emptyFS 1000).warned = false ∧
    (AutoSyncTree.should_sync natHex witTreeEmptyHex emptyFS 1000).res = true := by
  have hss := should_sync_cached natHex witTreeEmptyHex emptyFS 1000 ⟨none, some ("")⟩ rfl
  rw [witEmptyHex_hex] at hss
  have hcs : ¬(canSyncAt witTreeEmptyHex.minimal_sync_interval
      (SavedConfig.mk none (some (""))).last_timestamp 1000 = false) := by decide
  rw [if_neg hcs] at hss
  refine ⟨rfl, ?_, ?_, ?_⟩
  · rw [witEmptyHex_hex]
    decide
  · rw [hss]
    decide
  · rw [hss]
    decide

/-- Amended C4: `should_sync` returns false immediately when the interval gate
is false, computing no fingerprint; otherwise it returns true exactly when no
stored fingerprint exists or the stored one differs from the freshly computed
current (global) fingerprint, caching that fingerprint. A stored fingerprint
of different length is always a definite mismatch, and the diagnostic fires
exactly when that stored fingerprint is also non-empty: an empty stored
fingerprint (only possible through tampering) is a mismatch that fires no
diagnostic. The check completes normally in every case. -/
theorem should_sync_spec (hexdigest : List P → String) (t : AutoSyncTree P)
    (fs : FileSystem) (now : Int) (c : SavedConfig)
    (hc : t.config_manager.config = some c) :
    ((t.can_sync fs now).1 = false →
      (AutoSyncTree.should_sync hexdigest t fs now).res = false ∧
      (AutoSyncTree.should_sync hexdigest t fs now).warned = false ∧
      (AutoSyncTree.should_sync hexdigest t fs now).tree.current_hex = t.current_hex) ∧
    ((t.can_sync fs now).1 = true →
      ((AutoSyncTree.should_sync hexdigest t fs now).res = true ↔
        (c.last_hex = none ∨
          c.last_hex ≠ some (AutoSyncTree.generate_hex hexdigest t none).1)) ∧
      (AutoSyncTree.should_sync hexdigest t fs now).tree.current_hex =
        some (AutoSyncTree.generate_hex hexdigest t none).1) ∧
    ((t.can_sync fs now).1 = true → ∀ s, c.last_hex = some s →
      s.length ≠ (AutoSyncTree.generate_hex hexdigest t none).1.length →
      (AutoSyncTree.should_sync hexdigest t fs now).res = true ∧
      ((AutoSyncTree.should_sync hexdigest t fs now).warned = true ↔ s ≠ "")) := by
  have hcc := can_sync_cached t fs now c hc
  have hgate : (t.can_sync fs now).1 =
      canSyncAt t.minimal_sync_interval c.last_timestamp now := by rw [hcc]
  have hss := should_sync_cached hexdigest t fs now c hc
  refine ⟨?_, ?_, ?_⟩
  · intro hf
    rw [hgate] at hf
    rw [hss, if_pos hf]
    exact ⟨rfl, rfl, rfl⟩
  · intro ht
    rw [hgate] at ht
    rw [hss, if_neg (by rw [ht]; simp)]
    constructor
    · show decide (c.last_hex ≠
          some (AutoSyncTree.generate_hex hexdigest t none).1) = true ↔ _
      rcases c.last_hex with _ | s <;> simp
    · show ((AutoSyncTree.generate_hex hexdigest t none).2).current_hex =
        some (AutoSyncTree.generate_hex hexdigest t none).1
      rw [generate_hex_snd]
  · intro ht s hs hlen
    rw [hgate] at ht
    rw [hss, if_neg (by rw [ht]; simp)]
    refine ⟨?_, ?_⟩
    · show decide (c.last_hex ≠
          some (AutoSyncTree.generate_hex hexdigest t none).1) = true
      rw [hs]
      simp only [ne_eq, Option.some.injEq, decide_eq_true_eq]
      intro hEq
      exact hlen (by rw [hEq])
    · show ((match c.last_hex with
          | some s =>
            (s != "") &&
              (s.length != (AutoSyncTree.generate_hex hexdigest t none).1.length)
          | none => false) = true) ↔ s ≠ ""
      rw [hs]
      simp [hlen]

theorem witAt500_hex :
    (AutoSyncTree.generate_hex natHex (witTreeAt 500) none).1 = "hex218" := by
  rw [generate_hex_fst]
  simp [witTreeAt]
  rfl

/-- Witness for the amended C4: a stored three-character hex against the
six-character current digest — mismatch plus diagnostic. -/
theorem should_sync_spec_witness :
    (AutoSyncTree.can_sync (witTreeAt 500) emptyFS 1000).1 = true ∧
    ((AutoSyncTree.should_sync natHex (witTreeAt 500) emptyFS 1000).res = true ∧
      ((AutoSyncTree.should_sync natHex (witTreeAt 500) emptyFS 1000).warned = true ↔
        "abc" ≠ "")) :=
  ⟨by decide,
    (should_sync_spec natHex (witTreeAt 500) emptyFS 1000 ⟨some 500, some ("abc")⟩ rfl).2.2
      (by decide) "abc" rfl (by rw [witAt500_hex]; decide)⟩

/-- Counterexample to C6 as stated: after mutating the directory or the
filename, the convenience reads still return the OLD cached values rather
than absent — the setters drop only the cached resolved path, and a
non-forced load keeps serving the in-memory cache. -/
theorem setter_stale_reads_counterexample :
    ((witStoreSynced.set_directory ("elsewhere")).last_hex emptyFS).1 = some ("abc") ∧
    ((witStoreSynced.set_directory ("elsewhere")).last_synced_at emptyFS).1 = some 5 ∧
    ((witStoreSynced.set_filename ("other")).last_hex emptyFS).1 = some ("abc") ∧
    ((witStoreSynced.set_filename ("other")).last_synced_at emptyFS).1 = some 5 := by
  decide

/-- Amended C6: mutating `directory` or `filename` invalidates only the cached
resolved path — the next path access re-resolves against the new location —
while the in-memory config cache is retained: a non-forced load keeps
returning it without re-reading the file, so the convenience reads keep
returning the pre-mutation values (not absent) until a forced reload or a
successful sync overwrites them. -/
theorem setters_invalidate_path_not_config (s : SaveConfig) (fs : FileSystem)
    (c : SavedConfig) (d f : String) (hc : s.config = some c) :
    (s.set_directory d).path_cache = none ∧
    ((s.set_directory d).path fs).1 = ⟨d, s.filename⟩ ∧
    (s.set_directory d).config = some c ∧
    ((s.set_directory d).get_config fs false) = (c, s.set_directory d, fs) ∧
    ((s.set_directory d).last_hex fs).1 = c.last_hex ∧
    ((s.set_directory d).last_synced_at fs).1 = lastSyncedOf c.last_timestamp ∧
    (s.set_filename f).path_cache = none ∧
    ((s.set_filename f).path fs).1 = ⟨s.directory, removeJsonSuffix f⟩ ∧
    ((s.set_filename f).last_hex fs).1 = c.last_hex ∧
    ((s.set_filename f).last_synced_at fs).1 = lastSyncedOf c.last_timestamp := by
  refine ⟨rfl, rfl, hc, ?_, ?_, ?_, rfl, rfl, ?_, ?_⟩
  · exact get_config_cached (s.set_directory d) fs c
      (show (s.set_directory d).config = some c from hc)
  · rw [last_hex_cached (s.set_directory d) fs c
      (show (s.set_directory d).config = some c from hc)]
  · rw [last_synced_at_cached (s.set_directory d) fs c
      (show (s.set_directory d).config = some c from hc)]
  · rw [last_hex_cached (s.set_filename f) fs c
      (show (s.set_filename f).config = some c from hc)]
  · rw [last_synced_at_cached (s.set_filename f) fs c
      (show (s.set_filename f).config = some c from hc)]

/-- Witness for the amended C6 at a concrete synced store. -/
theorem setters_invalidate_path_not_config_witness :
    witStoreSynced.config = some ⟨some 5, some ("abc")⟩ ∧
    ((witStoreSynced.set_directory ("e")).path_cache = none ∧
      ((witStoreSynced.set_directory ("e")).path emptyFS).1 = ⟨"e", "f"⟩ ∧
      (witStoreSynced.set_directory ("e")).config = some ⟨some 5, some ("abc")⟩ ∧
      ((witStoreSynced.set_directory ("e")).get_config emptyFS false) =
        (⟨some 5, some ("abc")⟩, witStoreSynced.set_directory ("e"), emptyFS) ∧
      ((witStoreSynced.set_directory ("e")).last_hex emptyFS).1 = some ("abc") ∧
      ((witStoreSynced.set_directory ("e")).last_synced_at emptyFS).1 =
        lastSyncedOf (some 5) ∧
      (witStoreSynced.set_filename ("g")).path_cache = none ∧
      ((witStoreSynced.set_filename ("g")).path emptyFS).1 = ⟨"d", removeJsonSuffix ("g")⟩ ∧
      ((witStoreSynced.set_filename ("g")).last_hex emptyFS).1 = some ("abc") ∧
      ((witStoreSynced.set_filename ("g")).last_synced_at emptyFS).1 =
        lastSyncedOf (some 5)) :=
  ⟨rfl, setters_invalidate_path_not_config witStoreSynced emptyFS ⟨some 5, some ("abc")⟩
    "e" "g" rfl⟩

/-- Claim C9: for every command set given to the validation reporter, the
check raises on the first command (in iteration order) whose declared
capability is incompatible with the bot-level policy, and when it raises no
report is emitted — neither the JSON file nor the printed text. -/
theorem check_raises_on_first_incompatible (d : SoheabsTreeDebugger)
    (pre : List DCommand) (c : DCommand) (post : List DCommand)
    (e : ValidationError)
    (hpre : ∀ c2 ∈ pre, ∃ dc, d.check_command c2 = .ok dc)
    (hbad : d.check_command c = .error e) :
    d.check (pre ++ c :: post) = (.error e, none) := by
  unfold SoheabsTreeDebugger.check
  rw [if_neg (by simp)]
  have hloop : checkCommands d (pre ++ c :: post) = .error e := by
    induction pre with
    | nil => simp [checkCommands, hbad]
    | cons hd tl ih =>
      obtain ⟨dc, hdc⟩ := hpre hd (by simp)
      have ih2 := ih (fun c2 hm => hpre c2 (by simp [hm]))
      simp [checkCommands, hdc, ih2]
  rw [hloop]

/-- Witness for C9: a passing command, then a user-installable command under a
bot that is not user installable, then another command; the check raises the
error of the bad command and emits no report. -/
theorem check_raises_on_first_incompatible_witness :
    witDebugger.check_command witGoodCmd =
      .ok ⟨witGoodCmd, true, false, true, true, false⟩ ∧
    witDebugger.check_command witBadCmd = .error (.user_installable ("installme")) ∧
    witDebugger.check ([witGoodCmd] ++ witBadCmd :: [witGoodCmd]) =
      (.error (.user_installable ("installme")), none) :=
  ⟨rfl, rfl,
    check_raises_on_first_incompatible witDebugger [witGoodCmd] witBadCmd [witGoodCmd]
      (.user_installable ("installme"))
      (by
        intro c2 hm
        simp at hm
        subst hm
        exact ⟨⟨witGoodCmd, true, false, true, true, false⟩, rfl⟩)
      rfl⟩
